import Mathlib

/-!
Verification of the ScheduleStyler adaptive grid layout engine and the
layered capture-and-composite export pipeline.

The definitions below are shallow embeddings of the TypeScript source:

* the grid dimension solver `calculateCanvasDimensions` (CalendarCanvas /
  ExportStep module), embedded over `ℝ` since the source computes with
  `Math.sqrt` and real-valued arithmetic;
* the content-height estimator `calculateMinEventHeight`, the dynamic
  per-hour row height `hourHeight`, and the dynamic time-range computation,
  embedded over `ℚ` (times are `HH:MM` pairs, heights exact rationals);
* the export pipeline (`exportPipeline.ts`): `parseBlurPx`,
  `collectBlurRegions`, the staging discipline of `captureLayer`, the
  control flow of `downloadCalendarExport`, and the compositor drawing
  order with premultiplied source-over pixels.
-/

namespace ScheduleStyler

/- ------------------------------------------------------------------ -/
/- Grid dimension solver (source: calculateCanvasDimensions)          -/
/- ------------------------------------------------------------------ -/

noncomputable section

/-- Chrome constant HEADER_HEIGHT = 40. -/
def headerHeight : ℝ := 40

/-- Chrome constant FOOTER_HEIGHT = 40. -/
def footerHeight : ℝ := 40

/-- Chrome constant GRID_PADDING = 64 (p-8 = 32px * 2). -/
def gridPadding : ℝ := 64

/-- Chrome constant TIME_COLUMN_WIDTH = 48 (w-12 = 48px). -/
def timeColumnWidth : ℝ := 48

/-- Aspect constant LANDSCAPE_RATIO = 16 / 9 (slider = 0). -/
def landscapeRatio : ℝ := 16 / 9

/-- Aspect constant PORTRAIT_RATIO = 9 / 16 (slider = 1). -/
def portraitRatio : ℝ := 9 / 16

variable (numDays hourRange contentBasedHourHeight aspectRatioSlider minBlockWidth : ℝ)

/-- Source local minGridWidth = numDays * minBlockWidth. -/
def minGridWidth : ℝ := numDays * minBlockWidth

/-- Source local minGridHeight = hourRange * contentBasedHourHeight. -/
def minGridHeight : ℝ := hourRange * contentBasedHourHeight

/-- Source local naturalGridWidth = max(minGridWidth, numDays * 120). -/
def naturalGridWidth : ℝ := max (minGridWidth numDays minBlockWidth) (numDays * 120)

/-- Source local minCanvasWidth = minGridWidth + TIME_COLUMN_WIDTH + GRID_PADDING. -/
def minCanvasWidth : ℝ := minGridWidth numDays minBlockWidth + timeColumnWidth + gridPadding

/-- Source local minCanvasHeight = minGridHeight + HEADER_HEIGHT + FOOTER_HEIGHT + GRID_PADDING. -/
def minCanvasHeight : ℝ :=
  minGridHeight hourRange contentBasedHourHeight + headerHeight + footerHeight + gridPadding

/-- Source local naturalCanvasWidth = naturalGridWidth + TIME_COLUMN_WIDTH + GRID_PADDING. -/
def naturalCanvasWidth : ℝ :=
  naturalGridWidth numDays minBlockWidth + timeColumnWidth + gridPadding

/-- Source local naturalCanvasHeight; naturalGridHeight is minGridHeight in the source. -/
def naturalCanvasHeight : ℝ :=
  minGridHeight hourRange contentBasedHourHeight + headerHeight + footerHeight + gridPadding

/-- targetRatio = LANDSCAPE_RATIO + (PORTRAIT_RATIO - LANDSCAPE_RATIO) * aspectRatioSlider. -/
def targetRatio : ℝ := landscapeRatio + (portraitRatio - landscapeRatio) * aspectRatioSlider

/-- naturalRatio = naturalCanvasWidth / naturalCanvasHeight. -/
def naturalRatio : ℝ :=
  naturalCanvasWidth numDays minBlockWidth / naturalCanvasHeight hourRange contentBasedHourHeight

/-- Source local targetWidth = naturalCanvasHeight * targetRatio (shrink branch). -/
def targetWidth : ℝ :=
  naturalCanvasHeight hourRange contentBasedHourHeight * targetRatio aspectRatioSlider

/-- Source local widthCompressionRatio = naturalCanvasWidth / targetWidth. -/
def widthCompressionRatio : ℝ :=
  naturalCanvasWidth numDays minBlockWidth /
    targetWidth hourRange contentBasedHourHeight aspectRatioSlider

/-- Source local extraHeightFactor = Math.sqrt(widthCompressionRatio) - 1. -/
def extraHeightFactor : ℝ :=
  Real.sqrt (widthCompressionRatio numDays hourRange contentBasedHourHeight aspectRatioSlider
    minBlockWidth) - 1

/-- Source local extraHeight = minGridHeight * extraHeightFactor * 0.3. -/
def extraHeight : ℝ :=
  minGridHeight hourRange contentBasedHourHeight *
    extraHeightFactor numDays hourRange contentBasedHourHeight aspectRatioSlider minBlockWidth * 0.3

/-- Source local finalHeight = naturalCanvasHeight + extraHeight in the shrink branch. -/
def finalHeightShrink : ℝ :=
  naturalCanvasHeight hourRange contentBasedHourHeight +
    extraHeight numDays hourRange contentBasedHourHeight aspectRatioSlider minBlockWidth

/-- Source local finalWidth = finalHeight * targetRatio in the shrink branch. -/
def finalWidthShrink : ℝ :=
  finalHeightShrink numDays hourRange contentBasedHourHeight aspectRatioSlider minBlockWidth *
    targetRatio aspectRatioSlider

/-- Solver output record { width, height, gridWidth, gridHeight }. -/
structure GridDimensions where
  width : ℝ
  height : ℝ
  gridWidth : ℝ
  gridHeight : ℝ

/-- The (finalWidth, finalHeight) pair computed by the mutable branch logic of
calculateCanvasDimensions: expand width when the target is wider than natural,
otherwise try to shrink width (with sqrt-based height compensation and a clamp
back to the minimum width), otherwise hold width at the minimum and expand
height. -/
def canvasWH : ℝ × ℝ :=
  if targetRatio aspectRatioSlider >
      naturalRatio numDays hourRange contentBasedHourHeight minBlockWidth then
    (naturalCanvasHeight hourRange contentBasedHourHeight * targetRatio aspectRatioSlider,
     naturalCanvasHeight hourRange contentBasedHourHeight)
  else if targetRatio aspectRatioSlider <
      naturalRatio numDays hourRange contentBasedHourHeight minBlockWidth then
    if targetWidth hourRange contentBasedHourHeight aspectRatioSlider ≥
        minCanvasWidth numDays minBlockWidth then
      if widthCompressionRatio numDays hourRange contentBasedHourHeight aspectRatioSlider
          minBlockWidth > 1 then
        if finalWidthShrink numDays hourRange contentBasedHourHeight aspectRatioSlider
            minBlockWidth < minCanvasWidth numDays minBlockWidth then
          (minCanvasWidth numDays minBlockWidth,
           minCanvasWidth numDays minBlockWidth / targetRatio aspectRatioSlider)
        else
          (finalWidthShrink numDays hourRange contentBasedHourHeight aspectRatioSlider
            minBlockWidth,
           finalHeightShrink numDays hourRange contentBasedHourHeight aspectRatioSlider
            minBlockWidth)
      else
        (targetWidth hourRange contentBasedHourHeight aspectRatioSlider,
         naturalCanvasHeight hourRange contentBasedHourHeight)
    else
      (minCanvasWidth numDays minBlockWidth,
       minCanvasWidth numDays minBlockWidth / targetRatio aspectRatioSlider)
  else
    (naturalCanvasWidth numDays minBlockWidth,
     naturalCanvasHeight hourRange contentBasedHourHeight)

/-- calculateCanvasDimensions(numDays, hourRange, contentBasedHourHeight,
aspectRatioSlider, minBlockWidth): the final canvas dimensions together with the
grid-only dimensions obtained by subtracting the fixed chrome. -/
def calculateCanvasDimensions : GridDimensions :=
  { width :=
      (canvasWH numDays hourRange contentBasedHourHeight aspectRatioSlider minBlockWidth).1
    height :=
      (canvasWH numDays hourRange contentBasedHourHeight aspectRatioSlider minBlockWidth).2
    gridWidth :=
      (canvasWH numDays hourRange contentBasedHourHeight aspectRatioSlider minBlockWidth).1 -
        timeColumnWidth - gridPadding
    gridHeight :=
      (canvasWH numDays hourRange contentBasedHourHeight aspectRatioSlider minBlockWidth).2 -
        headerHeight - footerHeight - gridPadding }

end

/- ------------------------------------------------------------------ -/
/- Content-height estimator, per-hour row height, dynamic time range  -/
/- (source: CalendarCanvas / ExportStep, latest variant)              -/
/- ------------------------------------------------------------------ -/

/-- A calendar event as consumed by the layout estimators.  Times are the
`HH:MM` pairs obtained from splitting the source's time strings at the colon;
`location` and `notes` record the truthiness of the corresponding optional
string fields. -/
structure CalendarEvent where
  title : String
  displayTitle : String
  startTime : ℕ × ℕ
  endTime : ℕ × ℕ
  location : Bool
  notes : Bool
  includeNotes : Option Bool
deriving DecidableEq

/-- The style parameters of the template that the estimators read. -/
structure TemplateConfig where
  titleFontSize : ℚ
  detailsFontSize : ℚ
  showClassType : Bool
  showTime : Bool
  showLocation : Bool
  showNotes : Bool
  compact : Bool
deriving DecidableEq

/-- JavaScript Math.round: round half toward positive infinity. -/
def jsRound (x : ℚ) : ℤ := ⌊x + 1 / 2⌋

/-- roundToNearestHalfHour(t) = Math.round(t * 2) / 2. -/
def roundToNearestHalfHour (timeInHours : ℚ) : ℚ := (jsRound (timeInHours * 2) : ℚ) / 2

/-- The source's startVal: parseInt hours + parseInt minutes / 60. -/
def startVal (e : CalendarEvent) : ℚ := (e.startTime.1 : ℚ) + (e.startTime.2 : ℚ) / 60

/-- The source's endVal: parseInt hours + parseInt minutes / 60. -/
def endVal (e : CalendarEvent) : ℚ := (e.endTime.1 : ℚ) + (e.endTime.2 : ℚ) / 60

/-- calculateMinEventHeight(event, template, showFullTitle): base padding, up to
two title lines, plus one detail line per visible field (class type, and, when
not compact: time, location, and a two-line notes allowance). -/
def calculateMinEventHeight (event : CalendarEvent) (template : TemplateConfig)
    (showFullTitle : Bool) : ℚ :=
  let baseFontSize := template.titleFontSize
  let smallFontSize := template.detailsFontSize
  let lineHeight : ℚ := 1.4
  let title := if showFullTitle then event.title else event.displayTitle
  let titleLines : ℚ := ((⌈(title.length : ℚ) / 12⌉ : ℤ) : ℚ)
  let h1 : ℚ := 16 + baseFontSize * lineHeight * min titleLines 2
  let h2 := if template.showClassType then h1 + (smallFontSize * lineHeight + 4) else h1
  if template.compact then h2
  else
    let h3 := if template.showTime then h2 + (smallFontSize * lineHeight + 2) else h2
    let h4 :=
      if template.showLocation && event.location then h3 + (smallFontSize * lineHeight + 2)
      else h3
    if (event.includeNotes.getD template.showNotes) && event.notes then
      h4 + (smallFontSize * lineHeight * 2 + 8)
    else h4

/-- durationHours = max(0.5, alignedEnd - alignedStart) with both endpoints
rounded to the nearest half hour. -/
def durationHours (event : CalendarEvent) : ℚ :=
  max (1 / 2) (roundToNearestHalfHour (endVal event) - roundToNearestHalfHour (startVal event))

/-- requiredHourHeight = minContentHeight / durationHours for one event. -/
def requiredHourHeight (event : CalendarEvent) (template : TemplateConfig)
    (showFullTitle : Bool) : ℚ :=
  calculateMinEventHeight event template showFullTitle / durationHours event

/-- The dynamic per-hour row height: 60 for an empty event list, otherwise the
running maximum of 60 and each event's requiredHourHeight, clamped into
[60, 200] by max(60, min(. , 200)). -/
def hourHeight (events : List CalendarEvent) (template : TemplateConfig)
    (showFullTitle : Bool) : ℚ :=
  let baseHourHeight : ℚ := 60
  match events with
  | [] => baseHourHeight
  | _ :: _ =>
    let maxRequiredHourHeight :=
      events.foldl (fun acc e => max acc (requiredHourHeight e template showFullTitle))
        baseHourHeight
    max baseHourHeight (min maxRequiredHourHeight 200)

/-- The dynamic time range { startHour, hourRange, hours } of the grid. -/
structure TimeRange where
  startHour : ℤ
  hourRange : ℤ
  hours : List ℤ
deriving DecidableEq

/-- Fold of the source's forEach computing (minH, maxH): each event lowers minH
to its start hour and raises maxH to its effective end (end hour, plus one when
end minutes are positive). -/
def minMaxHours (events : List CalendarEvent) : ℤ × ℤ :=
  events.foldl
    (fun (acc : ℤ × ℤ) e =>
      let sH : ℤ := e.startTime.1
      let eH : ℤ := e.endTime.1
      let eM : ℤ := e.endTime.2
      let effectiveEnd := if eM > 0 then eH + 1 else eH
      (if sH < acc.1 then sH else acc.1, if effectiveEnd > acc.2 then effectiveEnd else acc.2))
    (24, 0)

/-- The dynamic time-range computation: with no events, fall back to the fixed
default (startHour 8, hourRange 10); otherwise derive [minH, maxH) from the
events, clamp maxH to 24, and widen ranges shorter than 4 hours. -/
def timeRangeOf (events : List CalendarEvent) : TimeRange :=
  match events with
  | [] => { startHour := 8, hourRange := 10, hours := (List.range 10).map (fun i => (i : ℤ) + 8) }
  | _ :: _ =>
    let mm := minMaxHours events
    let minH0 := mm.1
    let maxH0 := min 24 mm.2
    let maxH1 := if maxH0 - minH0 < 4 then min 24 (minH0 + 4) else maxH0
    let minH1 := if maxH1 - minH0 < 4 then max 0 (maxH1 - 4) else minH0
    let range := maxH1 - minH1
    { startHour := minH1
      hourRange := range
      hours := (List.range range.toNat).map (fun i => (i : ℤ) + minH1) }

/- ------------------------------------------------------------------ -/
/- Export pipeline (source: services/exportPipeline.ts)               -/
/- ------------------------------------------------------------------ -/

/-- Characters admitted by the regex character class [\d.] of parseBlurPx. -/
def isNumChar (c : Char) : Bool := c.isDigit || c = '.'

/-- Digit run to a natural number (the digits of a decimal literal). -/
def digitsToNat (cs : List Char) : ℕ :=
  cs.foldl (fun n c => 10 * n + (c.toNat - 48)) 0

/-- JavaScript parseFloat on a string drawn from [\d.]+: longest valid decimal
literal as a value, or none (NaN) when no digit occurs before the dot group
ends. -/
def jsParseFloatNum (cs : List Char) : Option ℚ :=
  let intPart := cs.takeWhile Char.isDigit
  let rest := cs.drop intPart.length
  match rest with
  | '.' :: rest2 =>
    let fracPart := rest2.takeWhile Char.isDigit
    if intPart = [] ∧ fracPart = [] then none
    else some ((digitsToNat intPart : ℚ) + (digitsToNat fracPart : ℚ) / (10 ^ fracPart.length))
  | _ => if intPart = [] then none else some (digitsToNat intPart)

/-- One attempt of the regex blur\(([\d.]+)px\) at the head of the character
list: literal "blur(", a non-empty run of digits and dots, then literal "px)";
yields the captured run. -/
def tryMatchBlur (cs : List Char) : Option (List Char) :=
  if List.isPrefixOf "blur(".toList cs then
    let rest := cs.drop 5
    let run := rest.takeWhile isNumChar
    let rest2 := rest.drop run.length
    if run ≠ [] ∧ List.isPrefixOf "px)".toList rest2 then some run else none
  else none

/-- Regex search: first position where blur\(([\d.]+)px\) matches. -/
def findBlurNum : List Char → Option (List Char)
  | [] => none
  | c :: cs =>
    match tryMatchBlur (c :: cs) with
    | some run => some run
    | none => findBlurNum cs

/-- parseBlurPx(filterValue): 0 for a falsy or "none" value, otherwise the
parseFloat of the first blur(<number>px) capture, with non-finite parses
degraded to 0. -/
def parseBlurPx (filterValue : String) : ℚ :=
  if filterValue = "" ∨ filterValue = "none" then 0
  else
    match findBlurNum filterValue.toList with
    | none => 0
    | some run =>
      match jsParseFloatNum run with
      | none => 0
      | some value => value

/-- parseRadius(value): parseFloat of the leading numeric run, non-finite
parses degraded to 0. -/
def parseRadius (value : String) : ℚ :=
  match jsParseFloatNum (value.toList.takeWhile isNumChar) with
  | none => 0
  | some parsed => parsed

/-- A bounding-client rectangle. -/
structure DOMRect where
  left : ℚ
  top : ℚ
  width : ℚ
  height : ℚ
deriving DecidableEq

/-- The computed-style and geometry facts collectBlurRegions reads from one
element of the surface tree. -/
structure StyleEl where
  dataComponent : Option String
  display : String
  visibility : String
  opacity : ℚ
  backdropFilter : String
  webkitBackdropFilter : String
  rect : DOMRect
  borderTopLeftRadius : String
  borderTopRightRadius : String
  borderBottomRightRadius : String
  borderBottomLeftRadius : String
deriving DecidableEq

/-- Per-corner rounding of a blur region. -/
structure BlurRadius where
  tl : ℚ
  tr : ℚ
  br : ℚ
  bl : ℚ
deriving DecidableEq

/-- A collected blur region, bounds relative to the surface root. -/
structure BlurRegion where
  x : ℚ
  y : ℚ
  width : ℚ
  height : ℚ
  blurPx : ℚ
  radius : BlurRadius
deriving DecidableEq

/-- The structural containers that never individually blur. -/
def skipComponents : List String := ["CalendarCard", "BackgroundContainer"]

/-- The body of the forEach of collectBlurRegions for a single element:
skip structural containers, hidden, zero-opacity, non-positive-blur and
zero-size elements, then clip the bounds to the root's own bounds and record
the region with its four corner radii. -/
def regionOf (rootRect : DOMRect) (el : StyleEl) : Option BlurRegion :=
  if el.dataComponent.any (fun component => skipComponents.contains component) then none
  else if el.display = "none" ∨ el.visibility = "hidden" then none
  else if el.opacity = 0 then none
  else
    let backdrop := if el.backdropFilter ≠ "" then el.backdropFilter else el.webkitBackdropFilter
    let blurPx := parseBlurPx backdrop
    if blurPx ≤ 0 then none
    else if el.rect.width ≤ 0 ∨ el.rect.height ≤ 0 then none
    else
      let left := el.rect.left - rootRect.left
      let top := el.rect.top - rootRect.top
      let right := left + el.rect.width
      let bottom := top + el.rect.height
      let clampedLeft := max 0 left
      let clampedTop := max 0 top
      let clampedRight := min rootRect.width right
      let clampedBottom := min rootRect.height bottom
      let width := clampedRight - clampedLeft
      let height := clampedBottom - clampedTop
      if width ≤ 0 ∨ height ≤ 0 then none
      else
        some
          { x := clampedLeft
            y := clampedTop
            width := width
            height := height
            blurPx := blurPx
            radius :=
              { tl := parseRadius el.borderTopLeftRadius
                tr := parseRadius el.borderTopRightRadius
                br := parseRadius el.borderBottomRightRadius
                bl := parseRadius el.borderBottomLeftRadius } }

/-- collectBlurRegions(root): walk every descendant in order and push the
surviving regions. -/
def collectBlurRegions (rootRect : DOMRect) (nodes : List StyleEl) : List BlurRegion :=
  nodes.filterMap (regionOf rootRect)

/- Staging discipline of captureLayer.  The staging root is modelled by the
list of clone identifiers it currently contains; a capture appends its clone,
performs the rasterization (which either yields a data URL or rejects), removes
the clone only after a successful rasterization, and finally decodes the data
URL (which may itself reject, after the clone was removed). -/

/-- Result of one captureLayer call. -/
inductive CaptureResult where
  | success (bitmap : ℕ)
  | rasterError
  | decodeError
deriving DecidableEq

/-- One captureLayer call over the staging container state: returns the call
result together with the staging container contents at the moment control
returns to the caller.  rasterOutcome is the outcome of htmlToImage.toPng
(some bitmap, or none for a rejection); decodeOk is whether
dataUrlToImageBitmap resolves. -/
def captureLayer (staging : List ℕ) (clone : ℕ) (rasterOutcome : Option ℕ)
    (decodeOk : Bool) : CaptureResult × List ℕ :=
  let staged := staging ++ [clone]
  match rasterOutcome with
  | none => (CaptureResult.rasterError, staged)
  | some bitmap =>
    let cleaned := staged.erase clone
    if decodeOk then (CaptureResult.success bitmap, cleaned)
    else (CaptureResult.decodeError, cleaned)

/-- The environment downloadCalendarExport runs against: whether the surface
node with the requested id exists, whether both layer captures resolve,
whether a 2D context is obtainable for the output canvas, and whether PNG
encoding yields a blob. -/
structure ExportEnv where
  nodeFound : Bool
  capturesResolve : Bool
  ctxObtainable : Bool
  blobProduced : Bool
deriving DecidableEq

/-- Observable outcome of downloadCalendarExport. -/
inductive ExportOutcome where
  | downloaded (file : String)
  | abortedSilently
  | raised
deriving DecidableEq

/-- Control flow of downloadCalendarExport: missing node returns early; a
rejected capture propagates; a missing 2D context returns early after the
captures; a null blob returns early; otherwise the download link is clicked
with fileName + ".png". -/
def downloadCalendarExport (env : ExportEnv) (fileName : String) : ExportOutcome :=
  if !env.nodeFound then ExportOutcome.abortedSilently
  else if !env.capturesResolve then ExportOutcome.raised
  else if !env.ctxObtainable then ExportOutcome.abortedSilently
  else if !env.blobProduced then ExportOutcome.abortedSilently
  else ExportOutcome.downloaded (fileName ++ ".png")

/- Compositor.  Pixels are premultiplied-alpha RGBA values, the canvas default
source-over operation composites a source pixel over a destination pixel, and
a raster is a pixel function over integer coordinates. -/

/-- A premultiplied-alpha RGBA pixel. -/
structure Pixel where
  r : ℚ
  g : ℚ
  b : ℚ
  a : ℚ
deriving DecidableEq

/-- The fully transparent pixel. -/
def transparentPixel : Pixel := { r := 0, g := 0, b := 0, a := 0 }

/-- Source-over compositing of premultiplied pixels (the canvas default
globalCompositeOperation). -/
def overPixel (src dst : Pixel) : Pixel :=
  { r := src.r + dst.r * (1 - src.a)
    g := src.g + dst.g * (1 - src.a)
    b := src.b + dst.b * (1 - src.a)
    a := src.a + dst.a * (1 - src.a) }

/-- A raster image: a pixel at every integer coordinate of the output canvas. -/
abbrev Raster : Type := ℤ × ℤ → Pixel

/-- ctx.drawImage(src, 0, 0, w, h) over the whole canvas: source-over of src
onto dst at every coordinate. -/
def drawImage (dst src : Raster) : Raster := fun p => overPixel (src p) (dst p)

/-- Math.round(blurPx * 100) / 100: the compositor's blur cache key. -/
def roundKey (blurPx : ℚ) : ℚ := (jsRound (blurPx * 100) : ℚ) / 100

/-- One iteration of the compositor's blur-region loop: look the scaled,
rounded blur radius up in the cache (rendering a fresh fully blurred copy of
the background on a miss), then draw that blurred copy through the clip of the
region's scaled rounded-rectangle path.  blurEffect models the browser's
ctx.filter blur; clipTest models path containment for ctx.clip of
addRoundedRectPath on the scaled bounds and corner radii. -/
def applyBlurRegion (blurEffect : ℚ → Raster → Raster)
    (clipTest : ℚ → ℚ → ℚ → ℚ → BlurRadius → ℤ × ℤ → Bool)
    (baseImage : Raster) (scale : ℚ)
    (acc : Raster × List (ℚ × Raster)) (region : BlurRegion) : Raster × List (ℚ × Raster) :=
  let blurPx := region.blurPx * scale
  let cacheKey := roundKey blurPx
  let canvas := acc.1
  let blurCache := acc.2
  let blurCanvas :=
    match blurCache.lookup cacheKey with
    | some cached => cached
    | none => blurEffect blurPx baseImage
  let blurCache2 :=
    match blurCache.lookup cacheKey with
    | some _ => blurCache
    | none => (cacheKey, blurCanvas) :: blurCache
  let x := region.x * scale
  let y := region.y * scale
  let width := region.width * scale
  let height := region.height * scale
  let radius : BlurRadius :=
    { tl := region.radius.tl * scale
      tr := region.radius.tr * scale
      br := region.radius.br * scale
      bl := region.radius.bl * scale }
  let canvas2 : Raster := fun p =>
    if clipTest x y width height radius p then overPixel (blurCanvas p) (canvas p) else canvas p
  (canvas2, blurCache2)

/-- The compositor of downloadCalendarExport: draw the background at full
size, then (only when blur regions were collected) the per-region blurred
patches, then the foreground on top, unclipped. -/
def compositeExport (blurEffect : ℚ → Raster → Raster)
    (clipTest : ℚ → ℚ → ℚ → ℚ → BlurRadius → ℤ × ℤ → Bool)
    (baseImage foregroundImage : Raster) (blurRegions : List BlurRegion)
    (scale : ℚ) : Raster :=
  let canvas0 : Raster := fun _ => transparentPixel
  let canvas1 := drawImage canvas0 baseImage
  let canvas2 :=
    if blurRegions.length > 0 then
      (blurRegions.foldl (applyBlurRegion blurEffect clipTest baseImage scale) (canvas1, [])).1
    else canvas1
  drawImage canvas2 foregroundImage

/- ------------------------------------------------------------------ -/
/- Sample data for concrete witnesses                                 -/
/- ------------------------------------------------------------------ -/

/-- A sample event, 9:00 to 10:30. -/
def sampleEvent : CalendarEvent :=
  { title := "Algebra lecture"
    displayTitle := "Algebra"
    startTime := (9, 0)
    endTime := (10, 30)
    location := true
    notes := false
    includeNotes := none }

/-- A sample event whose start and end both round to 9:00 (9:00 to 9:10). -/
def sampleShortEvent : CalendarEvent :=
  { title := "Lab"
    displayTitle := "Lab"
    startTime := (9, 0)
    endTime := (9, 10)
    location := false
    notes := false
    includeNotes := none }

/-- A sample template configuration. -/
def sampleTemplate : TemplateConfig :=
  { titleFontSize := 12
    detailsFontSize := 9.6
    showClassType := true
    showTime := true
    showLocation := true
    showNotes := false
    compact := false }

/-- A sample surface root rectangle. -/
def sampleRootRect : DOMRect := { left := 0, top := 0, width := 400, height := 300 }

/-- A sample element declaring a parseable positive backdrop blur, partially
offscreen to the left of the surface. -/
def sampleBlurEl : StyleEl :=
  { dataComponent := some "EventBlock"
    display := "block"
    visibility := "visible"
    opacity := 1
    backdropFilter := "blur(12px)"
    webkitBackdropFilter := ""
    rect := { left := -10, top := 20, width := 100, height := 50 }
    borderTopLeftRadius := "8px"
    borderTopRightRadius := "8px"
    borderBottomRightRadius := "8px"
    borderBottomLeftRadius := "8px" }

/-- A sample element whose backdrop-filter blur amount does not parse
(parseFloat(".") is NaN, degraded to radius 0). -/
def sampleBadBlurEl : StyleEl :=
  { dataComponent := none
    display := "block"
    visibility := "visible"
    opacity := 1
    backdropFilter := "blur(.px)"
    webkitBackdropFilter := ""
    rect := { left := 30, top := 30, width := 40, height := 40 }
    borderTopLeftRadius := "0px"
    borderTopRightRadius := "0px"
    borderBottomRightRadius := "0px"
    borderBottomLeftRadius := "0px" }

/-- A sample surface tree. -/
def sampleSurface : List StyleEl := [sampleBlurEl, sampleBadBlurEl]

/- ------------------------------------------------------------------ -/
/- Solver branch analysis                                             -/
/- ------------------------------------------------------------------ -/

theorem naturalCanvasHeight_eq (hourRange contentBasedHourHeight : ℝ) :
    naturalCanvasHeight hourRange contentBasedHourHeight =
      hourRange * contentBasedHourHeight + 144 := by
  simp only [naturalCanvasHeight, minGridHeight, headerHeight, footerHeight, gridPadding]
  ring

theorem minCanvasHeight_eq_naturalCanvasHeight (hourRange contentBasedHourHeight : ℝ) :
    minCanvasHeight hourRange contentBasedHourHeight =
      naturalCanvasHeight hourRange contentBasedHourHeight := rfl

theorem minCanvasWidth_eq (numDays minBlockWidth : ℝ) :
    minCanvasWidth numDays minBlockWidth = numDays * minBlockWidth + 112 := by
  simp only [minCanvasWidth, minGridWidth, timeColumnWidth, gridPadding]
  ring

theorem naturalCanvasWidth_eq (numDays minBlockWidth : ℝ) :
    naturalCanvasWidth numDays minBlockWidth =
      max (numDays * minBlockWidth) (numDays * 120) + 112 := by
  simp only [naturalCanvasWidth, naturalGridWidth, minGridWidth, timeColumnWidth, gridPadding]
  ring

theorem targetRatio_bounds {s : ℝ} (h0 : 0 ≤ s) (h1 : s ≤ 1) :
    9 / 16 ≤ targetRatio s ∧ targetRatio s ≤ 16 / 9 := by
  unfold targetRatio landscapeRatio portraitRatio
  constructor <;> nlinarith

theorem targetRatio_pos {s : ℝ} (h0 : 0 ≤ s) (h1 : s ≤ 1) : 0 < targetRatio s := by
  have h := (targetRatio_bounds h0 h1).1
  linarith

theorem targetRatio_antitone {s1 s2 : ℝ} (h : s1 ≤ s2) :
    targetRatio s2 ≤ targetRatio s1 := by
  unfold targetRatio landscapeRatio portraitRatio
  nlinarith

theorem minCanvasWidth_le_naturalCanvasWidth (numDays minBlockWidth : ℝ) :
    minCanvasWidth numDays minBlockWidth ≤ naturalCanvasWidth numDays minBlockWidth := by
  rw [minCanvasWidth_eq, naturalCanvasWidth_eq]
  have h := le_max_left (numDays * minBlockWidth) (numDays * 120)
  linarith

theorem naturalCanvasHeight_pos {hourRange contentBasedHourHeight : ℝ}
    (hhr : 1 ≤ hourRange) (hch : 0 < contentBasedHourHeight) :
    0 < naturalCanvasHeight hourRange contentBasedHourHeight := by
  rw [naturalCanvasHeight_eq]
  nlinarith

theorem minGridHeight_pos {hourRange contentBasedHourHeight : ℝ}
    (hhr : 1 ≤ hourRange) (hch : 0 < contentBasedHourHeight) :
    0 < minGridHeight hourRange contentBasedHourHeight := by
  unfold minGridHeight
  nlinarith

theorem targetWidth_eq (hourRange contentBasedHourHeight aspectRatioSlider : ℝ) :
    targetWidth hourRange contentBasedHourHeight aspectRatioSlider =
      naturalCanvasHeight hourRange contentBasedHourHeight * targetRatio aspectRatioSlider := rfl

theorem targetWidth_lt_naturalCanvasWidth
    (numDays hourRange contentBasedHourHeight aspectRatioSlider minBlockWidth : ℝ)
    (hnh : 0 < naturalCanvasHeight hourRange contentBasedHourHeight)
    (h2 : targetRatio aspectRatioSlider <
      naturalRatio numDays hourRange contentBasedHourHeight minBlockWidth) :
    targetWidth hourRange contentBasedHourHeight aspectRatioSlider <
      naturalCanvasWidth numDays minBlockWidth := by
  rw [targetWidth_eq]
  have h2' := h2
  rw [naturalRatio, lt_div_iff₀ hnh] at h2'
  linarith [h2']

theorem widthCompressionRatio_gt_one
    (numDays hourRange contentBasedHourHeight aspectRatioSlider minBlockWidth : ℝ)
    (hnh : 0 < naturalCanvasHeight hourRange contentBasedHourHeight)
    (ht0 : 0 < targetRatio aspectRatioSlider)
    (h2 : targetRatio aspectRatioSlider <
      naturalRatio numDays hourRange contentBasedHourHeight minBlockWidth) :
    1 < widthCompressionRatio numDays hourRange contentBasedHourHeight aspectRatioSlider
        minBlockWidth := by
  have htwpos : 0 < targetWidth hourRange contentBasedHourHeight aspectRatioSlider := by
    rw [targetWidth_eq]; exact mul_pos hnh ht0
  rw [widthCompressionRatio]
  exact (one_lt_div htwpos).mpr
    (targetWidth_lt_naturalCanvasWidth numDays hourRange contentBasedHourHeight aspectRatioSlider
      minBlockWidth hnh h2)

theorem sqrt_widthCompressionRatio_ge_one
    (numDays hourRange contentBasedHourHeight aspectRatioSlider minBlockWidth : ℝ)
    (hnh : 0 < naturalCanvasHeight hourRange contentBasedHourHeight)
    (ht0 : 0 < targetRatio aspectRatioSlider)
    (h2 : targetRatio aspectRatioSlider <
      naturalRatio numDays hourRange contentBasedHourHeight minBlockWidth) :
    1 ≤ Real.sqrt (widthCompressionRatio numDays hourRange contentBasedHourHeight
      aspectRatioSlider minBlockWidth) := by
  calc (1 : ℝ) = Real.sqrt 1 := Real.sqrt_one.symm
    _ ≤ _ := Real.sqrt_le_sqrt (widthCompressionRatio_gt_one numDays hourRange
        contentBasedHourHeight aspectRatioSlider minBlockWidth hnh ht0 h2).le

theorem extraHeight_nonneg
    (numDays hourRange contentBasedHourHeight aspectRatioSlider minBlockWidth : ℝ)
    (hnh : 0 < naturalCanvasHeight hourRange contentBasedHourHeight)
    (hmgh : 0 ≤ minGridHeight hourRange contentBasedHourHeight)
    (ht0 : 0 < targetRatio aspectRatioSlider)
    (h2 : targetRatio aspectRatioSlider <
      naturalRatio numDays hourRange contentBasedHourHeight minBlockWidth) :
    0 ≤ extraHeight numDays hourRange contentBasedHourHeight aspectRatioSlider minBlockWidth := by
  have hsq := sqrt_widthCompressionRatio_ge_one numDays hourRange contentBasedHourHeight
    aspectRatioSlider minBlockWidth hnh ht0 h2
  rw [extraHeight, extraHeightFactor]
  have h : (0 : ℝ) ≤ Real.sqrt (widthCompressionRatio numDays hourRange contentBasedHourHeight
      aspectRatioSlider minBlockWidth) - 1 := by linarith
  positivity

theorem finalHeightShrink_ge
    (numDays hourRange contentBasedHourHeight aspectRatioSlider minBlockWidth : ℝ)
    (hnh : 0 < naturalCanvasHeight hourRange contentBasedHourHeight)
    (hmgh : 0 ≤ minGridHeight hourRange contentBasedHourHeight)
    (ht0 : 0 < targetRatio aspectRatioSlider)
    (h2 : targetRatio aspectRatioSlider <
      naturalRatio numDays hourRange contentBasedHourHeight minBlockWidth) :
    naturalCanvasHeight hourRange contentBasedHourHeight ≤
      finalHeightShrink numDays hourRange contentBasedHourHeight aspectRatioSlider minBlockWidth := by
  have hext := extraHeight_nonneg numDays hourRange contentBasedHourHeight aspectRatioSlider
    minBlockWidth hnh hmgh ht0 h2
  rw [finalHeightShrink]
  linarith

theorem finalWidthShrink_ge
    (numDays hourRange contentBasedHourHeight aspectRatioSlider minBlockWidth : ℝ)
    (hnh : 0 < naturalCanvasHeight hourRange contentBasedHourHeight)
    (hmgh : 0 ≤ minGridHeight hourRange contentBasedHourHeight)
    (ht0 : 0 < targetRatio aspectRatioSlider)
    (h2 : targetRatio aspectRatioSlider <
      naturalRatio numDays hourRange contentBasedHourHeight minBlockWidth)
    (h3 : minCanvasWidth numDays minBlockWidth ≤
      targetWidth hourRange contentBasedHourHeight aspectRatioSlider) :
    minCanvasWidth numDays minBlockWidth ≤
      finalWidthShrink numDays hourRange contentBasedHourHeight aspectRatioSlider minBlockWidth := by
  have hfh := finalHeightShrink_ge numDays hourRange contentBasedHourHeight aspectRatioSlider
    minBlockWidth hnh hmgh ht0 h2
  rw [finalWidthShrink]
  calc minCanvasWidth numDays minBlockWidth
      ≤ targetWidth hourRange contentBasedHourHeight aspectRatioSlider := h3
    _ = naturalCanvasHeight hourRange contentBasedHourHeight * targetRatio aspectRatioSlider :=
        targetWidth_eq hourRange contentBasedHourHeight aspectRatioSlider
    _ ≤ finalHeightShrink numDays hourRange contentBasedHourHeight aspectRatioSlider
          minBlockWidth * targetRatio aspectRatioSlider :=
        mul_le_mul_of_nonneg_right hfh ht0.le

/-- Branch evaluation: when the target ratio is at least the natural ratio,
the solver expands width from the natural height (the equality case returns
the natural dimensions, which agree with that formula). -/
theorem canvasWH_wide (numDays hourRange contentBasedHourHeight aspectRatioSlider minBlockWidth : ℝ)
    (hnh : 0 < naturalCanvasHeight hourRange contentBasedHourHeight)
    (ht : naturalRatio numDays hourRange contentBasedHourHeight minBlockWidth ≤
      targetRatio aspectRatioSlider) :
    canvasWH numDays hourRange contentBasedHourHeight aspectRatioSlider minBlockWidth =
      (naturalCanvasHeight hourRange contentBasedHourHeight * targetRatio aspectRatioSlider,
       naturalCanvasHeight hourRange contentBasedHourHeight) := by
  unfold canvasWH
  rcases eq_or_lt_of_le ht with heq | hlt
  · rw [if_neg (by rw [← heq]; exact lt_irrefl _), if_neg (by rw [← heq]; exact lt_irrefl _)]
    have hw : naturalCanvasWidth numDays minBlockWidth =
        naturalCanvasHeight hourRange contentBasedHourHeight * targetRatio aspectRatioSlider := by
      rw [← heq, naturalRatio, mul_comm, div_mul_cancel₀ _ hnh.ne']
    rw [hw]
  · rw [if_pos hlt]

/-- Branch evaluation: the floor branch (target narrower than natural, width
cannot shrink to the target without violating the minimum). -/
theorem canvasWH_floor (numDays hourRange contentBasedHourHeight aspectRatioSlider minBlockWidth : ℝ)
    (h2 : targetRatio aspectRatioSlider <
      naturalRatio numDays hourRange contentBasedHourHeight minBlockWidth)
    (h3 : targetWidth hourRange contentBasedHourHeight aspectRatioSlider <
      minCanvasWidth numDays minBlockWidth) :
    canvasWH numDays hourRange contentBasedHourHeight aspectRatioSlider minBlockWidth =
      (minCanvasWidth numDays minBlockWidth,
       minCanvasWidth numDays minBlockWidth / targetRatio aspectRatioSlider) := by
  unfold canvasWH
  rw [if_neg (not_lt.mpr h2.le), if_pos h2, if_neg (not_le.mpr h3)]

/-- Branch evaluation: the shrink branch (target narrower than natural, width
can shrink to the target): the compression ratio exceeds one, the sqrt-based
height compensation applies, and the clamp back to the minimum width never
fires. -/
theorem canvasWH_shrink (numDays hourRange contentBasedHourHeight aspectRatioSlider minBlockWidth : ℝ)
    (hnh : 0 < naturalCanvasHeight hourRange contentBasedHourHeight)
    (hmgh : 0 ≤ minGridHeight hourRange contentBasedHourHeight)
    (ht0 : 0 < targetRatio aspectRatioSlider)
    (h2 : targetRatio aspectRatioSlider <
      naturalRatio numDays hourRange contentBasedHourHeight minBlockWidth)
    (h3 : minCanvasWidth numDays minBlockWidth ≤
      targetWidth hourRange contentBasedHourHeight aspectRatioSlider) :
    canvasWH numDays hourRange contentBasedHourHeight aspectRatioSlider minBlockWidth =
      (finalWidthShrink numDays hourRange contentBasedHourHeight aspectRatioSlider minBlockWidth,
       finalHeightShrink numDays hourRange contentBasedHourHeight aspectRatioSlider minBlockWidth) := by
  have htw : targetWidth hourRange contentBasedHourHeight aspectRatioSlider =
      naturalCanvasHeight hourRange contentBasedHourHeight * targetRatio aspectRatioSlider := rfl
  have htwpos : 0 < targetWidth hourRange contentBasedHourHeight aspectRatioSlider := by
    rw [htw]; exact mul_pos hnh ht0
  have hr1 := widthCompressionRatio_gt_one numDays hourRange contentBasedHourHeight
    aspectRatioSlider minBlockWidth hnh ht0 h2
  have hfw := finalWidthShrink_ge numDays hourRange contentBasedHourHeight aspectRatioSlider
    minBlockWidth hnh hmgh ht0 h2 h3
  unfold canvasWH
  rw [if_neg (not_lt.mpr h2.le), if_pos h2, if_pos h3, if_pos hr1, if_neg (not_lt.mpr hfw)]

theorem minCanvasWidth_pos {numDays minBlockWidth : ℝ}
    (hnd : 1 ≤ numDays) (hmbw : 0 < minBlockWidth) :
    0 < minCanvasWidth numDays minBlockWidth := by
  rw [minCanvasWidth_eq]
  nlinarith

theorem nw_le_mul_of_ratio_le
    {numDays hourRange contentBasedHourHeight aspectRatioSlider minBlockWidth : ℝ}
    (hnh : 0 < naturalCanvasHeight hourRange contentBasedHourHeight)
    (hge : naturalRatio numDays hourRange contentBasedHourHeight minBlockWidth ≤
      targetRatio aspectRatioSlider) :
    naturalCanvasWidth numDays minBlockWidth ≤
      naturalCanvasHeight hourRange contentBasedHourHeight * targetRatio aspectRatioSlider := by
  rw [naturalRatio, div_le_iff₀ hnh] at hge
  linarith [hge]

/-- Both canvas dimensions respect the minimum floors in every branch. -/
theorem canvasWH_bounds
    (numDays hourRange contentBasedHourHeight aspectRatioSlider minBlockWidth : ℝ)
    (hnd : 1 ≤ numDays) (hhr : 1 ≤ hourRange) (hch : 0 < contentBasedHourHeight)
    (hmbw : 0 < minBlockWidth) (hs0 : 0 ≤ aspectRatioSlider) (hs1 : aspectRatioSlider ≤ 1) :
    minCanvasWidth numDays minBlockWidth ≤
      (canvasWH numDays hourRange contentBasedHourHeight aspectRatioSlider minBlockWidth).1 ∧
    naturalCanvasHeight hourRange contentBasedHourHeight ≤
      (canvasWH numDays hourRange contentBasedHourHeight aspectRatioSlider minBlockWidth).2 := by
  have hnh := naturalCanvasHeight_pos hhr hch
  have hmgh := (minGridHeight_pos hhr hch).le
  have ht0 := targetRatio_pos hs0 hs1
  have hmwnw := minCanvasWidth_le_naturalCanvasWidth numDays minBlockWidth
  rcases le_or_lt (naturalRatio numDays hourRange contentBasedHourHeight minBlockWidth)
      (targetRatio aspectRatioSlider) with hge | hlt
  · rw [canvasWH_wide numDays hourRange contentBasedHourHeight aspectRatioSlider minBlockWidth
      hnh hge]
    dsimp only
    refine ⟨?_, le_refl _⟩
    have := nw_le_mul_of_ratio_le hnh hge
    linarith
  · rcases le_or_lt (minCanvasWidth numDays minBlockWidth)
        (targetWidth hourRange contentBasedHourHeight aspectRatioSlider) with h3 | h3
    · rw [canvasWH_shrink numDays hourRange contentBasedHourHeight aspectRatioSlider minBlockWidth
        hnh hmgh ht0 hlt h3]
      dsimp only
      exact ⟨finalWidthShrink_ge numDays hourRange contentBasedHourHeight aspectRatioSlider
          minBlockWidth hnh hmgh ht0 hlt h3,
        finalHeightShrink_ge numDays hourRange contentBasedHourHeight aspectRatioSlider
          minBlockWidth hnh hmgh ht0 hlt⟩
    · rw [canvasWH_floor numDays hourRange contentBasedHourHeight aspectRatioSlider minBlockWidth
        hlt h3]
      dsimp only
      refine ⟨le_refl _, ?_⟩
      rw [le_div_iff₀ ht0]
      rw [targetWidth_eq] at h3
      linarith

/-- The output ratio equals the interpolated target ratio in every branch. -/
theorem canvasWH_ratio
    (numDays hourRange contentBasedHourHeight aspectRatioSlider minBlockWidth : ℝ)
    (hnd : 1 ≤ numDays) (hhr : 1 ≤ hourRange) (hch : 0 < contentBasedHourHeight)
    (hmbw : 0 < minBlockWidth) (hs0 : 0 ≤ aspectRatioSlider) (hs1 : aspectRatioSlider ≤ 1) :
    (canvasWH numDays hourRange contentBasedHourHeight aspectRatioSlider minBlockWidth).1 /
      (canvasWH numDays hourRange contentBasedHourHeight aspectRatioSlider minBlockWidth).2 =
    targetRatio aspectRatioSlider := by
  have hnh := naturalCanvasHeight_pos hhr hch
  have hmgh := (minGridHeight_pos hhr hch).le
  have ht0 := targetRatio_pos hs0 hs1
  have hmw := minCanvasWidth_pos hnd hmbw
  rcases le_or_lt (naturalRatio numDays hourRange contentBasedHourHeight minBlockWidth)
      (targetRatio aspectRatioSlider) with hge | hlt
  · rw [canvasWH_wide numDays hourRange contentBasedHourHeight aspectRatioSlider minBlockWidth
      hnh hge]
    dsimp only
    exact mul_div_cancel_left₀ _ hnh.ne'
  · rcases le_or_lt (minCanvasWidth numDays minBlockWidth)
        (targetWidth hourRange contentBasedHourHeight aspectRatioSlider) with h3 | h3
    · rw [canvasWH_shrink numDays hourRange contentBasedHourHeight aspectRatioSlider minBlockWidth
        hnh hmgh ht0 hlt h3]
      have hfh : 0 < finalHeightShrink numDays hourRange contentBasedHourHeight aspectRatioSlider
          minBlockWidth :=
        lt_of_lt_of_le hnh (finalHeightShrink_ge numDays hourRange contentBasedHourHeight
          aspectRatioSlider minBlockWidth hnh hmgh ht0 hlt)
      dsimp only
      rw [finalWidthShrink]
      exact mul_div_cancel_left₀ _ hfh.ne'
    · rw [canvasWH_floor numDays hourRange contentBasedHourHeight aspectRatioSlider minBlockWidth
        hlt h3]
      dsimp only
      rw [div_div_eq_mul_div, mul_comm, mul_div_assoc, div_self hmw.ne', mul_one]

/-- C1. Floor invariant of the grid dimension solver: for every input with
numDays ≥ 1, hourRange ≥ 1, contentBasedHourHeight > 0, minBlockWidth > 0 and
aspectRatioSlider ∈ [0,1], the output grid region is never smaller than the
minimums (gridWidth ≥ numDays·minBlockWidth, gridHeight ≥
hourRange·contentBasedHourHeight), equivalently the canvas is never smaller
than the minimum canvas, in every branch of the algorithm. -/
theorem C1_floor_invariant
    (numDays hourRange contentBasedHourHeight aspectRatioSlider minBlockWidth : ℝ)
    (hnd : 1 ≤ numDays) (hhr : 1 ≤ hourRange) (hch : 0 < contentBasedHourHeight)
    (hmbw : 0 < minBlockWidth) (hs0 : 0 ≤ aspectRatioSlider) (hs1 : aspectRatioSlider ≤ 1) :
    numDays * minBlockWidth ≤
      (calculateCanvasDimensions numDays hourRange contentBasedHourHeight aspectRatioSlider
        minBlockWidth).gridWidth ∧
    hourRange * contentBasedHourHeight ≤
      (calculateCanvasDimensions numDays hourRange contentBasedHourHeight aspectRatioSlider
        minBlockWidth).gridHeight ∧
    minCanvasWidth numDays minBlockWidth ≤
      (calculateCanvasDimensions numDays hourRange contentBasedHourHeight aspectRatioSlider
        minBlockWidth).width ∧
    minCanvasHeight hourRange contentBasedHourHeight ≤
      (calculateCanvasDimensions numDays hourRange contentBasedHourHeight aspectRatioSlider
        minBlockWidth).height := by
  obtain ⟨hw, hh⟩ := canvasWH_bounds numDays hourRange contentBasedHourHeight aspectRatioSlider
    minBlockWidth hnd hhr hch hmbw hs0 hs1
  rw [minCanvasWidth_eq] at hw
  rw [naturalCanvasHeight_eq] at hh
  unfold calculateCanvasDimensions
  simp only [timeColumnWidth, gridPadding, headerHeight, footerHeight, minCanvasWidth_eq,
    minCanvasHeight_eq_naturalCanvasHeight, naturalCanvasHeight_eq]
  refine ⟨by linarith, by linarith, by linarith, by linarith⟩

/-- Witness for C1 at numDays = 5, hourRange = 10, contentBasedHourHeight = 60,
aspectRatioSlider = 0, minBlockWidth = 60. -/
theorem C1_floor_invariant_witness :
    (5 : ℝ) * 60 ≤ (calculateCanvasDimensions 5 10 60 0 60).gridWidth ∧
    (10 : ℝ) * 60 ≤ (calculateCanvasDimensions 5 10 60 0 60).gridHeight ∧
    minCanvasWidth 5 60 ≤ (calculateCanvasDimensions 5 10 60 0 60).width ∧
    minCanvasHeight 10 60 ≤ (calculateCanvasDimensions 5 10 60 0 60).height :=
  C1_floor_invariant 5 10 60 0 60 (by norm_num) (by norm_num) (by norm_num) (by norm_num)
    (by norm_num) (by norm_num)

/-- C2. Ratio invariant: whenever the target ratio lies strictly below the
natural ratio and the shrunken width naturalCanvasHeight · targetRatio still
meets the minimum canvas width, the output satisfies width / height =
landscapeRatio + (portraitRatio - landscapeRatio) · aspectRatioSlider
(exactly, in real arithmetic). -/
theorem C2_ratio_invariant
    (numDays hourRange contentBasedHourHeight aspectRatioSlider minBlockWidth : ℝ)
    (hnd : 1 ≤ numDays) (hhr : 1 ≤ hourRange) (hch : 0 < contentBasedHourHeight)
    (hmbw : 0 < minBlockWidth) (hs0 : 0 ≤ aspectRatioSlider) (hs1 : aspectRatioSlider ≤ 1)
    (hlt : targetRatio aspectRatioSlider <
      naturalRatio numDays hourRange contentBasedHourHeight minBlockWidth)
    (hcan : minCanvasWidth numDays minBlockWidth ≤
      naturalCanvasHeight hourRange contentBasedHourHeight * targetRatio aspectRatioSlider) :
    (calculateCanvasDimensions numDays hourRange contentBasedHourHeight aspectRatioSlider
        minBlockWidth).width /
      (calculateCanvasDimensions numDays hourRange contentBasedHourHeight aspectRatioSlider
        minBlockWidth).height =
    landscapeRatio + (portraitRatio - landscapeRatio) * aspectRatioSlider := by
  have h := canvasWH_ratio numDays hourRange contentBasedHourHeight aspectRatioSlider
    minBlockWidth hnd hhr hch hmbw hs0 hs1
  unfold calculateCanvasDimensions
  exact h

/-- Witness for C2 at numDays = 1, hourRange = 1, contentBasedHourHeight = 60,
aspectRatioSlider = 3/5, minBlockWidth = 60: the target ratio 151/144 is below
the natural ratio 232/204 and the shrunken width 204·(151/144) exceeds the
minimum canvas width 172. -/
theorem C2_ratio_invariant_witness :
    targetRatio (3 / 5) < naturalRatio 1 1 60 60 ∧
    minCanvasWidth 1 60 ≤ naturalCanvasHeight 1 60 * targetRatio (3 / 5) ∧
    (calculateCanvasDimensions 1 1 60 (3 / 5) 60).width /
      (calculateCanvasDimensions 1 1 60 (3 / 5) 60).height =
    landscapeRatio + (portraitRatio - landscapeRatio) * (3 / 5) := by
  have hlt : targetRatio (3 / 5) < naturalRatio 1 1 60 60 := by
    unfold targetRatio naturalRatio landscapeRatio portraitRatio
    rw [naturalCanvasWidth_eq, naturalCanvasHeight_eq]
    norm_num
  have hcan : minCanvasWidth 1 60 ≤ naturalCanvasHeight 1 60 * targetRatio (3 / 5) := by
    unfold targetRatio landscapeRatio portraitRatio
    rw [minCanvasWidth_eq, naturalCanvasHeight_eq]
    norm_num
  exact ⟨hlt, hcan, C2_ratio_invariant 1 1 60 (3 / 5) 60 (by norm_num) (by norm_num) (by norm_num)
    (by norm_num) (by norm_num) (by norm_num) hlt hcan⟩

/-- C10. Implicit claim: for every valid input and slider value, the output
satisfies width / height = targetRatio exactly in all branches, including the
minimum-width-floor branch (which achieves the target ratio by growing height
to minCanvasWidth / targetRatio): the ratio is never sacrificed. -/
theorem C10_ratio_all_branches
    (numDays hourRange contentBasedHourHeight aspectRatioSlider minBlockWidth : ℝ)
    (hnd : 1 ≤ numDays) (hhr : 1 ≤ hourRange) (hch : 0 < contentBasedHourHeight)
    (hmbw : 0 < minBlockWidth) (hs0 : 0 ≤ aspectRatioSlider) (hs1 : aspectRatioSlider ≤ 1) :
    (calculateCanvasDimensions numDays hourRange contentBasedHourHeight aspectRatioSlider
        minBlockWidth).width /
      (calculateCanvasDimensions numDays hourRange contentBasedHourHeight aspectRatioSlider
        minBlockWidth).height =
    targetRatio aspectRatioSlider := by
  have h := canvasWH_ratio numDays hourRange contentBasedHourHeight aspectRatioSlider
    minBlockWidth hnd hhr hch hmbw hs0 hs1
  unfold calculateCanvasDimensions
  exact h

/-- Witness for C10: a slider value (9/10) that exercises the floor branch at
numDays = 1, hourRange = 1, contentBasedHourHeight = 60, minBlockWidth = 60,
where the ratio still equals the target ratio. -/
theorem C10_ratio_all_branches_witness :
    targetRatio (9 / 10) < naturalRatio 1 1 60 60 ∧
    naturalCanvasHeight 1 60 * targetRatio (9 / 10) < minCanvasWidth 1 60 ∧
    (calculateCanvasDimensions 1 1 60 (9 / 10) 60).width /
      (calculateCanvasDimensions 1 1 60 (9 / 10) 60).height =
    targetRatio (9 / 10) := by
  refine ⟨?_, ?_, C10_ratio_all_branches 1 1 60 (9 / 10) 60 (by norm_num) (by norm_num)
    (by norm_num) (by norm_num) (by norm_num) (by norm_num)⟩
  · unfold targetRatio naturalRatio landscapeRatio portraitRatio
    rw [naturalCanvasWidth_eq, naturalCanvasHeight_eq]
    norm_num
  · unfold targetRatio landscapeRatio portraitRatio
    rw [minCanvasWidth_eq, naturalCanvasHeight_eq]
    norm_num

theorem naturalCanvasWidth_nonneg {numDays minBlockWidth : ℝ}
    (hnd : 1 ≤ numDays) (hmbw : 0 < minBlockWidth) :
    0 ≤ naturalCanvasWidth numDays minBlockWidth :=
  le_trans (minCanvasWidth_pos hnd hmbw).le (minCanvasWidth_le_naturalCanvasWidth _ _)

theorem naturalCanvasHeight_sub_smallc {hourRange contentBasedHourHeight : ℝ}
    (hhr : 1 ≤ hourRange) (hch : 0 < contentBasedHourHeight) :
    0 ≤ naturalCanvasHeight hourRange contentBasedHourHeight -
      minGridHeight hourRange contentBasedHourHeight * 0.3 := by
  rw [naturalCanvasHeight_eq]
  unfold minGridHeight
  nlinarith

/-- In the shrink branch the chosen width equals a sum of two terms that are
each monotone in the target ratio: (nh - 0.3·mgh)·t + 0.3·mgh·sqrt((nw/nh)·t). -/
theorem finalWidthShrink_formula
    (numDays hourRange contentBasedHourHeight aspectRatioSlider minBlockWidth : ℝ)
    (hnh : 0 < naturalCanvasHeight hourRange contentBasedHourHeight)
    (hnw0 : 0 ≤ naturalCanvasWidth numDays minBlockWidth) :
    finalWidthShrink numDays hourRange contentBasedHourHeight aspectRatioSlider minBlockWidth =
      (naturalCanvasHeight hourRange contentBasedHourHeight -
        minGridHeight hourRange contentBasedHourHeight * 0.3) * targetRatio aspectRatioSlider +
      minGridHeight hourRange contentBasedHourHeight * 0.3 *
        Real.sqrt ((naturalCanvasWidth numDays minBlockWidth /
          naturalCanvasHeight hourRange contentBasedHourHeight) * targetRatio aspectRatioSlider) := by
  have ha : 0 ≤ naturalCanvasWidth numDays minBlockWidth /
      naturalCanvasHeight hourRange contentBasedHourHeight := div_nonneg hnw0 hnh.le
  rw [finalWidthShrink, finalHeightShrink, extraHeight, extraHeightFactor,
    widthCompressionRatio, targetWidth_eq]
  rw [show naturalCanvasWidth numDays minBlockWidth /
      (naturalCanvasHeight hourRange contentBasedHourHeight * targetRatio aspectRatioSlider) =
      naturalCanvasWidth numDays minBlockWidth /
        naturalCanvasHeight hourRange contentBasedHourHeight / targetRatio aspectRatioSlider from
    by rw [div_div]]
  have h2 : Real.sqrt (naturalCanvasWidth numDays minBlockWidth /
        naturalCanvasHeight hourRange contentBasedHourHeight / targetRatio aspectRatioSlider) *
      targetRatio aspectRatioSlider =
      Real.sqrt (naturalCanvasWidth numDays minBlockWidth /
        naturalCanvasHeight hourRange contentBasedHourHeight * targetRatio aspectRatioSlider) := by
    rw [Real.sqrt_div ha, div_mul_eq_mul_div, mul_div_assoc, Real.div_sqrt,
      ← Real.sqrt_mul ha]
  linear_combination (minGridHeight hourRange contentBasedHourHeight * 0.3) * h2

/-- The shrink-branch width formula is monotone in the target ratio. -/
theorem shrinkWidth_mono
    (numDays hourRange contentBasedHourHeight minBlockWidth : ℝ) (t1 t2 : ℝ)
    (hhr : 1 ≤ hourRange) (hch : 0 < contentBasedHourHeight)
    (hnw0 : 0 ≤ naturalCanvasWidth numDays minBlockWidth)
    (ht2 : 0 ≤ t2) (h21 : t2 ≤ t1) :
    (naturalCanvasHeight hourRange contentBasedHourHeight -
        minGridHeight hourRange contentBasedHourHeight * 0.3) * t2 +
      minGridHeight hourRange contentBasedHourHeight * 0.3 *
        Real.sqrt ((naturalCanvasWidth numDays minBlockWidth /
          naturalCanvasHeight hourRange contentBasedHourHeight) * t2) ≤
    (naturalCanvasHeight hourRange contentBasedHourHeight -
        minGridHeight hourRange contentBasedHourHeight * 0.3) * t1 +
      minGridHeight hourRange contentBasedHourHeight * 0.3 *
        Real.sqrt ((naturalCanvasWidth numDays minBlockWidth /
          naturalCanvasHeight hourRange contentBasedHourHeight) * t1) := by
  have hnh := naturalCanvasHeight_pos hhr hch
  have hmgh := (minGridHeight_pos hhr hch).le
  have ha : 0 ≤ naturalCanvasWidth numDays minBlockWidth /
      naturalCanvasHeight hourRange contentBasedHourHeight := div_nonneg hnw0 hnh.le
  have hlin := naturalCanvasHeight_sub_smallc hhr hch
  have hsq : Real.sqrt ((naturalCanvasWidth numDays minBlockWidth /
        naturalCanvasHeight hourRange contentBasedHourHeight) * t2) ≤
      Real.sqrt ((naturalCanvasWidth numDays minBlockWidth /
        naturalCanvasHeight hourRange contentBasedHourHeight) * t1) :=
    Real.sqrt_le_sqrt (mul_le_mul_of_nonneg_left h21 ha)
  have h1 := mul_le_mul_of_nonneg_left h21 hlin
  have h2 := mul_le_mul_of_nonneg_left hsq (by positivity :
    (0:ℝ) ≤ minGridHeight hourRange contentBasedHourHeight * 0.3)
  linarith

/-- At the natural ratio the shrink-branch width formula equals the natural
canvas width. -/
theorem shrinkWidth_at_naturalRatio
    (numDays hourRange contentBasedHourHeight minBlockWidth : ℝ)
    (hnh : 0 < naturalCanvasHeight hourRange contentBasedHourHeight)
    (hnw0 : 0 ≤ naturalCanvasWidth numDays minBlockWidth) :
    (naturalCanvasHeight hourRange contentBasedHourHeight -
        minGridHeight hourRange contentBasedHourHeight * 0.3) *
        naturalRatio numDays hourRange contentBasedHourHeight minBlockWidth +
      minGridHeight hourRange contentBasedHourHeight * 0.3 *
        Real.sqrt ((naturalCanvasWidth numDays minBlockWidth /
          naturalCanvasHeight hourRange contentBasedHourHeight) *
          naturalRatio numDays hourRange contentBasedHourHeight minBlockWidth) =
    naturalCanvasWidth numDays minBlockWidth := by
  have ha : 0 ≤ naturalCanvasWidth numDays minBlockWidth /
      naturalCanvasHeight hourRange contentBasedHourHeight := div_nonneg hnw0 hnh.le
  rw [naturalRatio, Real.sqrt_mul_self ha]
  field_simp
  ring

/-- For a target ratio below the natural ratio, the shrink-branch width
formula is at least nh·t. -/
theorem shrinkWidth_ge_nh_mul
    (numDays hourRange contentBasedHourHeight minBlockWidth : ℝ) (t : ℝ)
    (hhr : 1 ≤ hourRange) (hch : 0 < contentBasedHourHeight)
    (hnw0 : 0 ≤ naturalCanvasWidth numDays minBlockWidth)
    (ht : 0 ≤ t) (htnr : t ≤ naturalRatio numDays hourRange contentBasedHourHeight minBlockWidth) :
    naturalCanvasHeight hourRange contentBasedHourHeight * t ≤
    (naturalCanvasHeight hourRange contentBasedHourHeight -
        minGridHeight hourRange contentBasedHourHeight * 0.3) * t +
      minGridHeight hourRange contentBasedHourHeight * 0.3 *
        Real.sqrt ((naturalCanvasWidth numDays minBlockWidth /
          naturalCanvasHeight hourRange contentBasedHourHeight) * t) := by
  have hnh := naturalCanvasHeight_pos hhr hch
  have hmgh := (minGridHeight_pos hhr hch).le
  have hanr : naturalRatio numDays hourRange contentBasedHourHeight minBlockWidth =
      naturalCanvasWidth numDays minBlockWidth /
        naturalCanvasHeight hourRange contentBasedHourHeight := rfl
  have htsq : t ≤ Real.sqrt ((naturalCanvasWidth numDays minBlockWidth /
      naturalCanvasHeight hourRange contentBasedHourHeight) * t) := by
    calc t = Real.sqrt (t * t) := (Real.sqrt_mul_self ht).symm
      _ ≤ _ := by
        apply Real.sqrt_le_sqrt
        apply mul_le_mul_of_nonneg_right _ ht
        rw [← hanr]
        exact htnr
  have h := mul_le_mul_of_nonneg_left htsq (by positivity :
    (0:ℝ) ≤ minGridHeight hourRange contentBasedHourHeight * 0.3)
  linarith

/-- The canvas width is antitone in the aspect slider, across all branches. -/
theorem canvasWH_width_antitone
    (numDays hourRange contentBasedHourHeight minBlockWidth s1 s2 : ℝ)
    (hnd : 1 ≤ numDays) (hhr : 1 ≤ hourRange) (hch : 0 < contentBasedHourHeight)
    (hmbw : 0 < minBlockWidth) (hs10 : 0 ≤ s1) (hs11 : s1 ≤ 1)
    (hs20 : 0 ≤ s2) (hs21 : s2 ≤ 1) (h12 : s1 ≤ s2) :
    (canvasWH numDays hourRange contentBasedHourHeight s2 minBlockWidth).1 ≤
    (canvasWH numDays hourRange contentBasedHourHeight s1 minBlockWidth).1 := by
  have hnh := naturalCanvasHeight_pos hhr hch
  have hmgh := (minGridHeight_pos hhr hch).le
  have ht10 := targetRatio_pos hs10 hs11
  have ht20 := targetRatio_pos hs20 hs21
  have ht21 : targetRatio s2 ≤ targetRatio s1 := targetRatio_antitone h12
  have hnw0 := naturalCanvasWidth_nonneg hnd hmbw
  have hmw0 := minCanvasWidth_pos hnd hmbw
  have hmwnw := minCanvasWidth_le_naturalCanvasWidth numDays minBlockWidth
  rcases le_or_lt (naturalRatio numDays hourRange contentBasedHourHeight minBlockWidth)
      (targetRatio s2) with hge2 | hlt2
  · -- both target ratios at least the natural ratio: both wide
    have hge1 : naturalRatio numDays hourRange contentBasedHourHeight minBlockWidth ≤
        targetRatio s1 := le_trans hge2 ht21
    rw [canvasWH_wide numDays hourRange contentBasedHourHeight s2 minBlockWidth hnh hge2,
      canvasWH_wide numDays hourRange contentBasedHourHeight s1 minBlockWidth hnh hge1]
    dsimp only
    exact mul_le_mul_of_nonneg_left ht21 hnh.le
  · rcases le_or_lt (naturalRatio numDays hourRange contentBasedHourHeight minBlockWidth)
        (targetRatio s1) with hge1 | hlt1
    · -- s1 wide, s2 on the narrow side
      rw [canvasWH_wide numDays hourRange contentBasedHourHeight s1 minBlockWidth hnh hge1]
      dsimp only
      have hnwle : naturalCanvasWidth numDays minBlockWidth ≤
          naturalCanvasHeight hourRange contentBasedHourHeight * targetRatio s1 :=
        nw_le_mul_of_ratio_le hnh hge1
      rcases le_or_lt (minCanvasWidth numDays minBlockWidth)
          (targetWidth hourRange contentBasedHourHeight s2) with h3 | h3
      · rw [canvasWH_shrink numDays hourRange contentBasedHourHeight s2 minBlockWidth hnh hmgh
          ht20 hlt2 h3]
        dsimp only
        rw [finalWidthShrink_formula numDays hourRange contentBasedHourHeight s2 minBlockWidth
          hnh hnw0]
        calc _ ≤ (naturalCanvasHeight hourRange contentBasedHourHeight -
                minGridHeight hourRange contentBasedHourHeight * 0.3) *
                naturalRatio numDays hourRange contentBasedHourHeight minBlockWidth +
              minGridHeight hourRange contentBasedHourHeight * 0.3 *
                Real.sqrt ((naturalCanvasWidth numDays minBlockWidth /
                  naturalCanvasHeight hourRange contentBasedHourHeight) *
                  naturalRatio numDays hourRange contentBasedHourHeight minBlockWidth) :=
              shrinkWidth_mono numDays hourRange contentBasedHourHeight minBlockWidth
                (naturalRatio numDays hourRange contentBasedHourHeight minBlockWidth)
                (targetRatio s2) hhr hch hnw0 ht20.le hlt2.le
          _ = naturalCanvasWidth numDays minBlockWidth :=
              shrinkWidth_at_naturalRatio numDays hourRange contentBasedHourHeight minBlockWidth
                hnh hnw0
          _ ≤ _ := hnwle
      · rw [canvasWH_floor numDays hourRange contentBasedHourHeight s2 minBlockWidth hlt2 h3]
        dsimp only
        linarith
    · -- both on the narrow side
      rcases le_or_lt (minCanvasWidth numDays minBlockWidth)
          (targetWidth hourRange contentBasedHourHeight s1) with h31 | h31
      · rw [canvasWH_shrink numDays hourRange contentBasedHourHeight s1 minBlockWidth hnh hmgh
          ht10 hlt1 h31]
        dsimp only
        rw [finalWidthShrink_formula numDays hourRange contentBasedHourHeight s1 minBlockWidth
          hnh hnw0]
        rcases le_or_lt (minCanvasWidth numDays minBlockWidth)
            (targetWidth hourRange contentBasedHourHeight s2) with h32 | h32
        · rw [canvasWH_shrink numDays hourRange contentBasedHourHeight s2 minBlockWidth hnh hmgh
            ht20 hlt2 h32]
          dsimp only
          rw [finalWidthShrink_formula numDays hourRange contentBasedHourHeight s2 minBlockWidth
            hnh hnw0]
          exact shrinkWidth_mono numDays hourRange contentBasedHourHeight minBlockWidth
            (targetRatio s1) (targetRatio s2) hhr hch hnw0 ht20.le ht21
        · rw [canvasWH_floor numDays hourRange contentBasedHourHeight s2 minBlockWidth hlt2 h32]
          dsimp only
          have hge := shrinkWidth_ge_nh_mul numDays hourRange contentBasedHourHeight minBlockWidth
            (targetRatio s1) hhr hch hnw0 ht10.le hlt1.le
          rw [targetWidth_eq] at h31
          linarith
      · -- s1 in the floor branch forces s2 into the floor branch as well
        have h32 : targetWidth hourRange contentBasedHourHeight s2 <
            minCanvasWidth numDays minBlockWidth := by
          rw [targetWidth_eq] at h31 ⊢
          have := mul_le_mul_of_nonneg_left ht21 hnh.le
          linarith
        rw [canvasWH_floor numDays hourRange contentBasedHourHeight s1 minBlockWidth hlt1 h31,
          canvasWH_floor numDays hourRange contentBasedHourHeight s2 minBlockWidth hlt2 h32]

/-- With minBlockWidth ≥ 120 the natural width collapses onto the minimum
width. -/
theorem naturalCanvasWidth_eq_min {numDays minBlockWidth : ℝ}
    (hnd : 1 ≤ numDays) (hmbw120 : 120 ≤ minBlockWidth) :
    naturalCanvasWidth numDays minBlockWidth = minCanvasWidth numDays minBlockWidth := by
  rw [naturalCanvasWidth_eq, minCanvasWidth_eq, max_eq_left]
  exact mul_le_mul_of_nonneg_left hmbw120 (by linarith)

/-- The canvas height is monotone in the aspect slider when minBlockWidth is
at least the 120-unit per-column baseline (so the shrink branch is empty). -/
theorem canvasWH_height_mono
    (numDays hourRange contentBasedHourHeight minBlockWidth s1 s2 : ℝ)
    (hnd : 1 ≤ numDays) (hhr : 1 ≤ hourRange) (hch : 0 < contentBasedHourHeight)
    (hmbw : 0 < minBlockWidth) (hmbw120 : 120 ≤ minBlockWidth)
    (hs10 : 0 ≤ s1) (hs11 : s1 ≤ 1) (hs20 : 0 ≤ s2) (hs21 : s2 ≤ 1) (h12 : s1 ≤ s2) :
    (canvasWH numDays hourRange contentBasedHourHeight s1 minBlockWidth).2 ≤
    (canvasWH numDays hourRange contentBasedHourHeight s2 minBlockWidth).2 := by
  have hnh := naturalCanvasHeight_pos hhr hch
  have ht10 := targetRatio_pos hs10 hs11
  have ht20 := targetRatio_pos hs20 hs21
  have ht21 : targetRatio s2 ≤ targetRatio s1 := targetRatio_antitone h12
  have hmw0 := minCanvasWidth_pos hnd hmbw
  have hnweq := naturalCanvasWidth_eq_min hnd hmbw120
  have hfloor : ∀ s : ℝ, targetRatio s <
      naturalRatio numDays hourRange contentBasedHourHeight minBlockWidth →
      targetWidth hourRange contentBasedHourHeight s < minCanvasWidth numDays minBlockWidth := by
    intro s hs
    rw [targetWidth_eq, ← hnweq]
    rw [naturalRatio, lt_div_iff₀ hnh] at hs
    linarith
  rcases le_or_lt (naturalRatio numDays hourRange contentBasedHourHeight minBlockWidth)
      (targetRatio s2) with hge2 | hlt2
  · have hge1 : naturalRatio numDays hourRange contentBasedHourHeight minBlockWidth ≤
        targetRatio s1 := le_trans hge2 ht21
    rw [canvasWH_wide numDays hourRange contentBasedHourHeight s2 minBlockWidth hnh hge2,
      canvasWH_wide numDays hourRange contentBasedHourHeight s1 minBlockWidth hnh hge1]
  · rw [canvasWH_floor numDays hourRange contentBasedHourHeight s2 minBlockWidth hlt2
      (hfloor s2 hlt2)]
    dsimp only
    rcases le_or_lt (naturalRatio numDays hourRange contentBasedHourHeight minBlockWidth)
        (targetRatio s1) with hge1 | hlt1
    · rw [canvasWH_wide numDays hourRange contentBasedHourHeight s1 minBlockWidth hnh hge1]
      dsimp only
      rw [le_div_iff₀ ht20, ← hnweq]
      have h3 : naturalCanvasHeight hourRange contentBasedHourHeight * targetRatio s2 <
          naturalCanvasWidth numDays minBlockWidth := by
        rw [naturalRatio, lt_div_iff₀ hnh] at hlt2
        linarith
      linarith
    · rw [canvasWH_floor numDays hourRange contentBasedHourHeight s1 minBlockWidth hlt1
        (hfloor s1 hlt1)]
      dsimp only
      exact div_le_div_of_nonneg_left hmw0.le ht20 ht21

/-- Concrete evaluation: at numDays = hourRange = 1, contentBasedHourHeight =
minBlockWidth = 60 and slider 4441/5950 the solver takes the shrink branch
(compression ratio 64/49, sqrt = 8/7) and the height is 204 + 18/7 = 1446/7. -/
theorem solver_height_shrink_sample :
    (calculateCanvasDimensions 1 1 60 (4441 / 5950) 60).height = 1446 / 7 := by
  have hnw : naturalCanvasWidth 1 60 = 232 := by
    rw [naturalCanvasWidth_eq, max_eq_right (by norm_num : (1:ℝ) * 60 ≤ 1 * 120)]
    norm_num
  have hnhv : naturalCanvasHeight 1 60 = 204 := by rw [naturalCanvasHeight_eq]; norm_num
  have hmw : minCanvasWidth 1 60 = 172 := by rw [minCanvasWidth_eq]; norm_num
  have ht : targetRatio (4441 / 5950) = 1421 / 1632 := by
    unfold targetRatio landscapeRatio portraitRatio
    norm_num
  have hlt : targetRatio (4441 / 5950) < naturalRatio 1 1 60 60 := by
    rw [ht, naturalRatio, hnw, hnhv]
    norm_num
  have h3 : minCanvasWidth 1 60 ≤ targetWidth 1 60 (4441 / 5950) := by
    rw [hmw, targetWidth_eq, hnhv, ht]
    norm_num
  have ht0 : 0 < targetRatio (4441 / 5950) := by rw [ht]; norm_num
  have hmgh : (0:ℝ) ≤ minGridHeight 1 60 := by unfold minGridHeight; norm_num
  show (canvasWH 1 1 60 (4441 / 5950) 60).2 = 1446 / 7
  rw [canvasWH_shrink 1 1 60 (4441 / 5950) 60 (by rw [hnhv]; norm_num) hmgh ht0 hlt h3]
  dsimp only
  rw [finalHeightShrink, extraHeight, extraHeightFactor]
  have hwcr : widthCompressionRatio 1 1 60 (4441 / 5950) 60 = 64 / 49 := by
    rw [widthCompressionRatio, targetWidth_eq, hnw, hnhv, ht]
    norm_num
  rw [hwcr, show (64:ℝ) / 49 = (8 / 7) ^ 2 by norm_num,
    Real.sqrt_sq (by norm_num : (0:ℝ) ≤ 8 / 7), hnhv]
  unfold minGridHeight
  norm_num

/-- Concrete evaluation: same inputs at slider 3376/4375 (target ratio 21/25),
the solver takes the minimum-width floor branch and the height is
172 / (21/25) = 4300/21. -/
theorem solver_height_floor_sample :
    (calculateCanvasDimensions 1 1 60 (3376 / 4375) 60).height = 4300 / 21 := by
  have hnw : naturalCanvasWidth 1 60 = 232 := by
    rw [naturalCanvasWidth_eq, max_eq_right (by norm_num : (1:ℝ) * 60 ≤ 1 * 120)]
    norm_num
  have hnhv : naturalCanvasHeight 1 60 = 204 := by rw [naturalCanvasHeight_eq]; norm_num
  have hmw : minCanvasWidth 1 60 = 172 := by rw [minCanvasWidth_eq]; norm_num
  have ht : targetRatio (3376 / 4375) = 21 / 25 := by
    unfold targetRatio landscapeRatio portraitRatio
    norm_num
  have hlt : targetRatio (3376 / 4375) < naturalRatio 1 1 60 60 := by
    rw [ht, naturalRatio, hnw, hnhv]
    norm_num
  have h3 : targetWidth 1 60 (3376 / 4375) < minCanvasWidth 1 60 := by
    rw [hmw, targetWidth_eq, hnhv, ht]
    norm_num
  show (canvasWH 1 1 60 (3376 / 4375) 60).2 = 4300 / 21
  rw [canvasWH_floor 1 1 60 (3376 / 4375) 60 hlt h3]
  dsimp only
  rw [hmw, ht]
  norm_num

/-- C3 counterexample: with numDays = 1, hourRange = 1, contentBasedHourHeight
= 60, minBlockWidth = 60, the slider values s1 = 4441/5950 < s2 = 3376/4375
(both in [0,1]) give height(s1) = 1446/7 > 4300/21 = height(s2): increasing
the slider DOES decrease the canvas height across the shrink-to-floor branch
transition, refuting the claim as stated. -/
theorem C3_monotonicity_counterexample :
    (4441 / 5950 : ℝ) ≤ 3376 / 4375 ∧ (0:ℝ) ≤ 4441 / 5950 ∧ (4441 / 5950 : ℝ) ≤ 1 ∧
    (0:ℝ) ≤ 3376 / 4375 ∧ (3376 / 4375 : ℝ) ≤ 1 ∧
    (calculateCanvasDimensions 1 1 60 (3376 / 4375) 60).height <
      (calculateCanvasDimensions 1 1 60 (4441 / 5950) 60).height := by
  refine ⟨by norm_num, by norm_num, by norm_num, by norm_num, by norm_num, ?_⟩
  rw [solver_height_shrink_sample, solver_height_floor_sample]
  norm_num

/-- C3 (amended). Holding numDays, hourRange, contentBasedHourHeight and
minBlockWidth fixed, for slider values s1 ≤ s2 in [0,1]: the canvas width
never increases; and, provided minBlockWidth ≥ 120 (so the natural width
equals the minimum width and the shrink branch is empty), the canvas height
never decreases.  (For minBlockWidth < 120 the height can decrease when the
slider crosses into the minimum-width floor branch, per the counterexample.) -/
theorem C3_monotonicity_amended
    (numDays hourRange contentBasedHourHeight minBlockWidth s1 s2 : ℝ)
    (hnd : 1 ≤ numDays) (hhr : 1 ≤ hourRange) (hch : 0 < contentBasedHourHeight)
    (hmbw : 0 < minBlockWidth) (hs10 : 0 ≤ s1) (hs11 : s1 ≤ 1)
    (hs20 : 0 ≤ s2) (hs21 : s2 ≤ 1) (h12 : s1 ≤ s2) :
    (calculateCanvasDimensions numDays hourRange contentBasedHourHeight s2 minBlockWidth).width ≤
      (calculateCanvasDimensions numDays hourRange contentBasedHourHeight s1 minBlockWidth).width ∧
    (120 ≤ minBlockWidth →
      (calculateCanvasDimensions numDays hourRange contentBasedHourHeight s1
          minBlockWidth).height ≤
        (calculateCanvasDimensions numDays hourRange contentBasedHourHeight s2
          minBlockWidth).height) := by
  constructor
  · exact canvasWH_width_antitone numDays hourRange contentBasedHourHeight minBlockWidth s1 s2
      hnd hhr hch hmbw hs10 hs11 hs20 hs21 h12
  · intro h120
    exact canvasWH_height_mono numDays hourRange contentBasedHourHeight minBlockWidth s1 s2
      hnd hhr hch hmbw h120 hs10 hs11 hs20 hs21 h12

/-- Witness for the amended C3 at numDays = 5, hourRange = 10,
contentBasedHourHeight = 60, minBlockWidth = 150 ≥ 120, s1 = 1/4 ≤ s2 = 3/4. -/
theorem C3_monotonicity_amended_witness :
    (calculateCanvasDimensions 5 10 60 (3 / 4) 150).width ≤
      (calculateCanvasDimensions 5 10 60 (1 / 4) 150).width ∧
    (calculateCanvasDimensions 5 10 60 (1 / 4) 150).height ≤
      (calculateCanvasDimensions 5 10 60 (3 / 4) 150).height := by
  obtain ⟨h1, h2⟩ := C3_monotonicity_amended 5 10 60 150 (1 / 4) (3 / 4) (by norm_num)
    (by norm_num) (by norm_num) (by norm_num) (by norm_num) (by norm_num) (by norm_num)
    (by norm_num) (by norm_num)
  exact ⟨h1, h2 (by norm_num)⟩

/- ------------------------------------------------------------------ -/
/- Row height and time range                                          -/
/- ------------------------------------------------------------------ -/

theorem foldl_max_comm (l : List ℚ) (a b : ℚ) :
    l.foldl max (max a b) = max a (l.foldl max b) := by
  induction l generalizing b with
  | nil => rfl
  | cons c l ih =>
    simp only [List.foldl_cons]
    rw [max_assoc, ih]

theorem max_min_clamp (M : ℚ) : max 60 (min (max 60 M) 200) = max 60 (min M 200) := by
  rcases le_total M 60 with h | h
  · rw [max_eq_left h, min_eq_left (by norm_num : (60:ℚ) ≤ 200),
      min_eq_left (le_trans h (by norm_num)), max_eq_left h, max_self]
  · rw [max_eq_right h]

/-- C5. The per-hour row height: for a non-empty event list it equals
max(60, min(max over events of minEventHeight / durationHours, 200)); it
always lies in [60, 200]; an event whose aligned end equals its aligned start
(zero or rounded-to-zero duration) is treated as a half-hour event; and the
empty event list yields 60. -/
theorem C5_hour_height_formula
    (e : CalendarEvent) (es : List CalendarEvent) (template : TemplateConfig)
    (showFullTitle : Bool) (events : List CalendarEvent) (ev : CalendarEvent)
    (hz : roundToNearestHalfHour (endVal ev) = roundToNearestHalfHour (startVal ev)) :
    hourHeight (e :: es) template showFullTitle =
      max 60 (min ((es.map fun x => requiredHourHeight x template showFullTitle).foldl max
        (requiredHourHeight e template showFullTitle)) 200) ∧
    60 ≤ hourHeight events template showFullTitle ∧
    hourHeight events template showFullTitle ≤ 200 ∧
    durationHours ev = 1 / 2 ∧
    hourHeight [] template showFullTitle = 60 := by
  have hfold : ∀ (l : List CalendarEvent) (b : ℚ),
      l.foldl (fun acc x => max acc (requiredHourHeight x template showFullTitle)) b =
      (l.map fun x => requiredHourHeight x template showFullTitle).foldl max b := by
    intro l
    induction l with
    | nil => intro b; rfl
    | cons c l ih =>
      intro b
      simp only [List.foldl_cons, List.map_cons, ih]
  refine ⟨?_, ?_, ?_, ?_, rfl⟩
  · show max 60 (min ((e :: es).foldl
        (fun acc x => max acc (requiredHourHeight x template showFullTitle)) 60) 200) = _
    rw [List.foldl_cons, hfold, foldl_max_comm, max_min_clamp]
  · cases events with
    | nil => norm_num [hourHeight]
    | cons x xs => exact le_max_left _ _
  · cases events with
    | nil => norm_num [hourHeight]
    | cons x xs =>
      exact max_le (by norm_num) (min_le_right _ _)
  · unfold durationHours
    rw [hz, sub_self]
    norm_num

/-- Witness for C5 with the sample events and template: the singleton list of
the 9:00-10:30 sample event, and the 9:00-9:10 event whose rounded duration
vanishes. -/
theorem C5_hour_height_formula_witness :
    hourHeight [sampleEvent] sampleTemplate false =
      max 60 (min (([] : List CalendarEvent).map
        (fun x => requiredHourHeight x sampleTemplate false) |>.foldl max
        (requiredHourHeight sampleEvent sampleTemplate false)) 200) ∧
    60 ≤ hourHeight [sampleEvent] sampleTemplate false ∧
    hourHeight [sampleEvent] sampleTemplate false ≤ 200 ∧
    durationHours sampleShortEvent = 1 / 2 ∧
    hourHeight [] sampleTemplate false = 60 :=
  C5_hour_height_formula sampleEvent [] sampleTemplate false [sampleEvent] sampleShortEvent
    (by unfold roundToNearestHalfHour jsRound endVal startVal sampleShortEvent; norm_num)

/-- C9 counterexample: the empty-event fallback hour range is 10, not the 8
hours the claim states. -/
theorem C9_default_range_counterexample :
    (timeRangeOf []).hourRange = 10 ∧ (timeRangeOf []).hourRange ≠ 8 := by
  constructor
  · rfl
  · decide

/-- C9 (amended). With an empty event list the layout falls back to the fixed
default range of 10 hours starting at hour 8: hourRange is the fixed positive
constant 10 and the hours list is the non-empty list [8, ..., 17] starting at
hour 8, so the grid is never degenerate. -/
theorem C9_default_range_amended :
    timeRangeOf [] =
      { startHour := 8, hourRange := 10,
        hours := [8, 9, 10, 11, 12, 13, 14, 15, 16, 17] } ∧
    0 < (timeRangeOf []).hourRange ∧
    (timeRangeOf []).hours ≠ [] ∧
    (timeRangeOf []).hours.head? = some 8 := by
  refine ⟨?_, by decide, by decide, by decide⟩
  decide

/- ------------------------------------------------------------------ -/
/- Export pipeline claims                                             -/
/- ------------------------------------------------------------------ -/

/-- C4 (failing input). Starting from an empty staging root, a captureLayer
call whose htmlToImage.toPng rasterization rejects leaves the cloned node in
the staging container (captureLayer has no try/finally around the
rasterization), contradicting the claim that the container is empty again on
every code path; on the success paths (including a rejection of the decode
step, which happens after removeChild) the container is empty as claimed. -/
theorem C4_staging_leak_on_raster_rejection :
    (captureLayer [] 0 none true).2 = [0] ∧
    (captureLayer [] 0 none true).2 ≠ [] ∧
    (captureLayer [] 0 (some 1) true).2 = [] ∧
    (captureLayer [] 0 (some 1) false).2 = [] := by
  refine ⟨rfl, by decide, rfl, rfl⟩

/-- C7. Export abort semantics: when the surface node cannot be found, or (the
captures having resolved) a 2D drawing context cannot be obtained, or PNG
encoding yields no blob, downloadCalendarExport returns early and silently: no
download is triggered and no exception propagates from these missing-target
conditions. -/
theorem C7_missing_target_abort (env : ExportEnv) (fileName : String)
    (h : env.nodeFound = false ∨
      (env.capturesResolve = true ∧ env.ctxObtainable = false) ∨
      (env.capturesResolve = true ∧ env.ctxObtainable = true ∧ env.blobProduced = false)) :
    downloadCalendarExport env fileName = ExportOutcome.abortedSilently := by
  unfold downloadCalendarExport
  rcases h with h1 | ⟨h1, h2⟩ | ⟨h1, h2, h3⟩
  · simp [h1]
  · cases hn : env.nodeFound <;> simp [hn, h1, h2]
  · cases hn : env.nodeFound <;> simp [hn, h1, h2, h3]

/-- Witness for C7: the three missing-target environments each abort silently. -/
theorem C7_missing_target_abort_witness :
    downloadCalendarExport ⟨false, true, true, true⟩ "schedule" =
      ExportOutcome.abortedSilently ∧
    downloadCalendarExport ⟨true, true, false, true⟩ "schedule" =
      ExportOutcome.abortedSilently ∧
    downloadCalendarExport ⟨true, true, true, false⟩ "schedule" =
      ExportOutcome.abortedSilently :=
  ⟨C7_missing_target_abort _ _ (Or.inl rfl),
   C7_missing_target_abort _ _ (Or.inr (Or.inl ⟨rfl, rfl⟩)),
   C7_missing_target_abort _ _ (Or.inr (Or.inr ⟨rfl, rfl, rfl⟩))⟩

/-- C8. Compositor identity round-trip: with an empty blur-region list and a
fully transparent foreground raster, the composited output (background drawn
at full size, no blur patches, transparent foreground on top) is
pixel-identical to the background rasterization alone. -/
theorem C8_compositor_round_trip
    (blurEffect : ℚ → Raster → Raster)
    (clipTest : ℚ → ℚ → ℚ → ℚ → BlurRadius → ℤ × ℤ → Bool)
    (baseImage foregroundImage : Raster) (scale : ℚ)
    (hfg : ∀ q, foregroundImage q = transparentPixel) (p : ℤ × ℤ) :
    compositeExport blurEffect clipTest baseImage foregroundImage [] scale p = baseImage p := by
  have hunder : ∀ q : Pixel, overPixel transparentPixel q = q := by
    intro q
    cases q
    simp [overPixel, transparentPixel]
  have honto : ∀ q : Pixel, overPixel q transparentPixel = q := by
    intro q
    cases q
    simp [overPixel, transparentPixel]
  show overPixel (foregroundImage p)
      ((if ([] : List BlurRegion).length > 0 then
          (([] : List BlurRegion).foldl (applyBlurRegion blurEffect clipTest baseImage scale)
            (drawImage (fun _ => transparentPixel) baseImage, [])).1
        else drawImage (fun _ => transparentPixel) baseImage) p) = baseImage p
  rw [if_neg (by norm_num), hfg p]
  show overPixel transparentPixel (overPixel (baseImage p) transparentPixel) = baseImage p
  rw [honto, hunder]

/-- Witness for C8 at a constant opaque background and the constant
transparent foreground, evaluated at the origin pixel. -/
theorem C8_compositor_round_trip_witness :
    compositeExport (fun _ img => img) (fun _ _ _ _ _ _ => true)
      (fun _ => { r := 1, g := 0, b := 1 / 2, a := 1 }) (fun _ => transparentPixel) [] 3
      (0, 0) = { r := 1, g := 0, b := 1 / 2, a := 1 } :=
  C8_compositor_round_trip (fun _ img => img) (fun _ _ _ _ _ _ => true)
    (fun _ => { r := 1, g := 0, b := 1 / 2, a := 1 }) (fun _ => transparentPixel) 3
    (fun _ => rfl) (0, 0)

/-- C6. Blur-region collector postconditions: every returned region has
blurPx > 0, width > 0, height > 0 and bounds clipped to the surface root's own
bounds; every element that is not a structural container, is visible (not
hidden, nonzero opacity, positive rect size), declares a positive parseable
blur and has a nonempty clipped intersection with the surface contributes a
region (nothing is dropped); and an element whose backdrop-filter does not
parse as a positive blur is excluded without error (it yields no region). -/
theorem C6_blur_region_collector (rootRect : DOMRect) (nodes : List StyleEl) :
    (∀ region ∈ collectBlurRegions rootRect nodes,
      0 < region.blurPx ∧ 0 < region.width ∧ 0 < region.height ∧
      0 ≤ region.x ∧ 0 ≤ region.y ∧
      region.x + region.width ≤ rootRect.width ∧
      region.y + region.height ≤ rootRect.height) ∧
    (∀ el ∈ nodes,
      el.dataComponent.any (fun component => skipComponents.contains component) = false →
      ¬(el.display = "none" ∨ el.visibility = "hidden") →
      el.opacity ≠ 0 →
      0 < parseBlurPx (if el.backdropFilter ≠ "" then el.backdropFilter
        else el.webkitBackdropFilter) →
      ¬(el.rect.width ≤ 0 ∨ el.rect.height ≤ 0) →
      0 < min rootRect.width (el.rect.left - rootRect.left + el.rect.width) -
        max 0 (el.rect.left - rootRect.left) →
      0 < min rootRect.height (el.rect.top - rootRect.top + el.rect.height) -
        max 0 (el.rect.top - rootRect.top) →
      ∃ region, regionOf rootRect el = some region ∧
        region ∈ collectBlurRegions rootRect nodes) ∧
    (∀ el : StyleEl,
      parseBlurPx (if el.backdropFilter ≠ "" then el.backdropFilter
        else el.webkitBackdropFilter) ≤ 0 →
      regionOf rootRect el = none) := by
  refine ⟨?_, ?_, ?_⟩
  · intro region hmem
    obtain ⟨el, hel, heq⟩ := List.mem_filterMap.mp hmem
    simp only [regionOf] at heq
    generalize parseBlurPx
      (if el.backdropFilter ≠ "" then el.backdropFilter else el.webkitBackdropFilter) =
      blurValue at heq
    split_ifs at heq with h1 h2 h3 h4 h5 h6
    all_goals try exact Option.noConfusion heq
    rw [Option.some.injEq] at heq
    subst heq
    push_neg at h6
    refine ⟨not_le.mp h4, h6.1, h6.2, le_max_left _ _, le_max_left _ _, ?_, ?_⟩
    · have hmin := min_le_left rootRect.width (el.rect.left - rootRect.left + el.rect.width)
      dsimp only
      linarith
    · have hmin := min_le_left rootRect.height (el.rect.top - rootRect.top + el.rect.height)
      dsimp only
      linarith
  · intro el hel h1 h2 h3 h4 h5 h6 h7
    cases hro : regionOf rootRect el with
    | none =>
      exfalso
      revert hro
      simp only [regionOf]
      rw [if_neg (by rw [h1]; simp), if_neg h2, if_neg h3, if_neg (not_le.mpr h4), if_neg h5,
        if_neg (by push_neg; exact ⟨h6, h7⟩)]
      simp
    | some region =>
      exact ⟨region, rfl, List.mem_filterMap.mpr ⟨el, hel, hro⟩⟩
  · intro el h
    simp only [regionOf]
    generalize hbd : parseBlurPx
      (if el.backdropFilter ≠ "" then el.backdropFilter else el.webkitBackdropFilter) =
      blurValue at h ⊢
    split_ifs with h1 h2 h3 h4 h5 h6 <;> first | rfl | exact absurd h (by assumption)

theorem parseBlurPx_sample : parseBlurPx "blur(12px)" = 12 := by decide

theorem parseBlurPx_badSample : parseBlurPx "blur(.px)" = 0 := by decide

theorem parseRadius_sample : parseRadius "8px" = 8 := by decide

theorem regionOf_sampleBlurEl_eval :
    regionOf sampleRootRect sampleBlurEl =
      some ⟨0, 20, 90, 50, 12, ⟨8, 8, 8, 8⟩⟩ := by
  simp only [regionOf, sampleBlurEl, sampleRootRect]
  norm_num [parseBlurPx_sample, parseRadius_sample, skipComponents, Option.any, min_def, max_def]
  all_goals decide

theorem regionOf_sampleBadBlurEl_eval :
    regionOf sampleRootRect sampleBadBlurEl = none := by
  simp only [regionOf, sampleBadBlurEl, sampleRootRect]
  norm_num [parseBlurPx_badSample, skipComponents, Option.any]
  all_goals decide

theorem collectBlurRegions_sample_eval :
    collectBlurRegions sampleRootRect sampleSurface =
      [⟨0, 20, 90, 50, 12, ⟨8, 8, 8, 8⟩⟩] := by
  simp only [collectBlurRegions, sampleSurface, List.filterMap_cons,
    regionOf_sampleBlurEl_eval, regionOf_sampleBadBlurEl_eval, List.filterMap_nil]

/-- Witness for C6 on the sample surface: the clipped region of the sample
blur element satisfies all postconditions, the sample blur element is not
dropped, and the element with the unparsable blur amount yields no region. -/
theorem C6_blur_region_collector_witness :
    (0 < (⟨0, 20, 90, 50, 12, ⟨8, 8, 8, 8⟩⟩ : BlurRegion).blurPx ∧
      0 < (⟨0, 20, 90, 50, 12, ⟨8, 8, 8, 8⟩⟩ : BlurRegion).width ∧
      0 < (⟨0, 20, 90, 50, 12, ⟨8, 8, 8, 8⟩⟩ : BlurRegion).height ∧
      0 ≤ (⟨0, 20, 90, 50, 12, ⟨8, 8, 8, 8⟩⟩ : BlurRegion).x ∧
      0 ≤ (⟨0, 20, 90, 50, 12, ⟨8, 8, 8, 8⟩⟩ : BlurRegion).y ∧
      (⟨0, 20, 90, 50, 12, ⟨8, 8, 8, 8⟩⟩ : BlurRegion).x +
        (⟨0, 20, 90, 50, 12, ⟨8, 8, 8, 8⟩⟩ : BlurRegion).width ≤ sampleRootRect.width ∧
      (⟨0, 20, 90, 50, 12, ⟨8, 8, 8, 8⟩⟩ : BlurRegion).y +
        (⟨0, 20, 90, 50, 12, ⟨8, 8, 8, 8⟩⟩ : BlurRegion).height ≤ sampleRootRect.height) ∧
    (∃ region, regionOf sampleRootRect sampleBlurEl = some region ∧
      region ∈ collectBlurRegions sampleRootRect sampleSurface) ∧
    regionOf sampleRootRect sampleBadBlurEl = none := by
  obtain ⟨hpost, hcomplete, hnone⟩ := C6_blur_region_collector sampleRootRect sampleSurface
  refine ⟨hpost ⟨0, 20, 90, 50, 12, ⟨8, 8, 8, 8⟩⟩
      (by rw [collectBlurRegions_sample_eval]; exact List.mem_singleton.mpr rfl),
    hcomplete sampleBlurEl (by decide) (by decide) (by decide) (by decide) (by decide)
      (by decide)
      (by simp only [sampleRootRect, sampleBlurEl]; norm_num [min_def, max_def])
      (by simp only [sampleRootRect, sampleBlurEl]; norm_num [min_def, max_def]),
    hnone sampleBadBlurEl (by decide)⟩

end ScheduleStyler
